import Mathlib

set_option linter.unusedVariables false

/-!
Verification of the inspector callback stubs in
`src/engine/inspector_stubs.cpp` of gleicon/nano.

The source file defines nine `extern "C"` stub functions required by the
v8-zig inspector bindings.  Eight of them return `void` with an empty body;
`v8_inspector__Client__IMPL__generateUniqueId` has the body `return 0;`.

We embed the stubs shallowly.  A call executes against an explicit program
state (byte-addressable memory plus an output trace) and yields an
`Outcome`: either a normal return carrying the result value and the
resulting state, or an abnormal outcome (a thrown exception or a crash).
Pointer arguments (the opaque `v8_inspector__Client__IMPL*` /
`v8_inspector__Channel__IMPL*` handles, `void* data`, the `const char*`
message buffers, and the `StringView*` / `V8StackTrace*` handles) are
modelled as machine addresses; address `0` is the null pointer.  Since no
stub body touches memory, produces output, or can throw, each embedded
function returns `.normal` with the state passed through unchanged, exactly
mirroring the empty (respectively `return 0;`) bodies of the source.

In addition, the bodies themselves are deeply embedded as a small statement
syntax (`Stmt`) so that the syntactic facts used by the termination claim -
no loop, no function call, a single execution step - are statable.
-/

namespace InspectorStubs

/-- Machine address; `0` is the null pointer. -/
abbrev Ptr := Nat

/-- Byte-addressable memory: contents at each address. -/
abbrev Mem := Nat → Nat

/-- Observable program state for a stub call: the memory (which holds every
input buffer reachable through the pointer arguments) and the trace of
output bytes produced so far on any output channel. -/
structure State where
  mem : Mem
  output : List Nat

/-- Outcome of a C function call: a normal return carrying the result value
and the state after the call, or an abnormal outcome (an exception
propagating out of the call, or a crash such as an invalid dereference). -/
inductive Outcome (α : Type) where
  | normal (v : α) (s : State) : Outcome α
  | abnormal : Outcome α

/-!
The nine stub functions, one Lean definition per source function, keeping
the source symbol names.  Argument lists follow the C signatures:
`int` and `int64_t` become `Int`, `unsigned` and `size_t` become `Nat`,
every pointer becomes `Ptr`.
-/

/-- Embedding of `int64_t v8_inspector__Client__IMPL__generateUniqueId(self, data)`:
body is `return 0;`. -/
def v8_inspector__Client__IMPL__generateUniqueId
    (self : Ptr) (data : Ptr) (s : State) : Outcome Int :=
  .normal 0 s

/-- Embedding of `void v8_inspector__Client__IMPL__runMessageLoopOnPause(self, data, contextGroupId)`:
empty body. -/
def v8_inspector__Client__IMPL__runMessageLoopOnPause
    (self : Ptr) (data : Ptr) (contextGroupId : Int) (s : State) : Outcome Unit :=
  .normal () s

/-- Embedding of `void v8_inspector__Client__IMPL__quitMessageLoopOnPause(self, data)`:
empty body. -/
def v8_inspector__Client__IMPL__quitMessageLoopOnPause
    (self : Ptr) (data : Ptr) (s : State) : Outcome Unit :=
  .normal () s

/-- Embedding of `void v8_inspector__Client__IMPL__runIfWaitingForDebugger(self, data, contextGroupId)`:
empty body. -/
def v8_inspector__Client__IMPL__runIfWaitingForDebugger
    (self : Ptr) (data : Ptr) (contextGroupId : Int) (s : State) : Outcome Unit :=
  .normal () s

/-- Embedding of `void v8_inspector__Client__IMPL__consoleAPIMessage(self, data,
contextGroupId, level, message, url, lineNumber, columnNumber, stackTrace)`:
empty body. -/
def v8_inspector__Client__IMPL__consoleAPIMessage
    (self : Ptr) (data : Ptr) (contextGroupId : Int) (level : Int)
    (message : Ptr) (url : Ptr) (lineNumber : Nat) (columnNumber : Nat)
    (stackTrace : Ptr) (s : State) : Outcome Unit :=
  .normal () s

/-- Embedding of `void v8_inspector__Client__IMPL__ensureDefaultContextInGroup(self, data, contextGroupId)`:
empty body. -/
def v8_inspector__Client__IMPL__ensureDefaultContextInGroup
    (self : Ptr) (data : Ptr) (contextGroupId : Int) (s : State) : Outcome Unit :=
  .normal () s

/-- Embedding of `void v8_inspector__Channel__IMPL__sendResponse(self, data,
callId, message, length)`: empty body. -/
def v8_inspector__Channel__IMPL__sendResponse
    (self : Ptr) (data : Ptr) (callId : Int) (message : Ptr) (length : Nat)
    (s : State) : Outcome Unit :=
  .normal () s

/-- Embedding of `void v8_inspector__Channel__IMPL__sendNotification(self, data, msg, length)`:
empty body. -/
def v8_inspector__Channel__IMPL__sendNotification
    (self : Ptr) (data : Ptr) (msg : Ptr) (length : Nat) (s : State) : Outcome Unit :=
  .normal () s

/-- Embedding of `void v8_inspector__Channel__IMPL__flushProtocolNotifications(self, data)`:
empty body. -/
def v8_inspector__Channel__IMPL__flushProtocolNotifications
    (self : Ptr) (data : Ptr) (s : State) : Outcome Unit :=
  .normal () s

/-!
Deep embedding of the function bodies as statement syntax, used for the
syntactic termination facts (no loop, no call, single step).
-/

/-- Statement syntax rich enough to express what the stub bodies could have
contained: a `return v;`, the implicit return at the end of a `void` body, a
loop, a function call, and sequencing. -/
inductive Stmt where
  | ret (v : Int) : Stmt
  | retVoid : Stmt
  | whileLoop (body : Stmt) : Stmt
  | callFn (name : String) : Stmt
  | seq (a b : Stmt) : Stmt
deriving DecidableEq

/-- True when the statement contains a loop. -/
def Stmt.hasLoop : Stmt → Bool
  | .ret _ => false
  | .retVoid => false
  | .whileLoop _ => true
  | .callFn _ => false
  | .seq a b => a.hasLoop || b.hasLoop

/-- True when the statement contains a function call (hence possibly
recursion). -/
def Stmt.hasCall : Stmt → Bool
  | .ret _ => false
  | .retVoid => false
  | .whileLoop b => b.hasCall
  | .callFn _ => true
  | .seq a b => a.hasCall || b.hasCall

/-- Number of execution steps a loop-free, call-free statement takes; loops
are counted as one step per syntactic occurrence (their iteration count is
irrelevant here because no stub body contains one). -/
def Stmt.stepCount : Stmt → Nat
  | .ret _ => 1
  | .retVoid => 1
  | .whileLoop b => 1 + b.stepCount
  | .callFn _ => 1
  | .seq a b => a.stepCount + b.stepCount

/-- Body of `generateUniqueId` in the source: the single statement `return 0;`. -/
def generateUniqueId_body : Stmt := .ret 0

/-- Body of `runMessageLoopOnPause` in the source: empty. -/
def runMessageLoopOnPause_body : Stmt := .retVoid

/-- Body of `quitMessageLoopOnPause` in the source: empty. -/
def quitMessageLoopOnPause_body : Stmt := .retVoid

/-- Body of `runIfWaitingForDebugger` in the source: empty. -/
def runIfWaitingForDebugger_body : Stmt := .retVoid

/-- Body of `consoleAPIMessage` in the source: empty. -/
def consoleAPIMessage_body : Stmt := .retVoid

/-- Body of `ensureDefaultContextInGroup` in the source: empty. -/
def ensureDefaultContextInGroup_body : Stmt := .retVoid

/-- Body of `sendResponse` in the source: empty. -/
def sendResponse_body : Stmt := .retVoid

/-- Body of `sendNotification` in the source: empty. -/
def sendNotification_body : Stmt := .retVoid

/-- Body of `flushProtocolNotifications` in the source: empty. -/
def flushProtocolNotifications_body : Stmt := .retVoid

/-- List of the nine stub bodies, in source order. -/
def allBodies : List Stmt :=
  [generateUniqueId_body, runMessageLoopOnPause_body, quitMessageLoopOnPause_body,
   runIfWaitingForDebugger_body, consoleAPIMessage_body,
   ensureDefaultContextInGroup_body, sendResponse_body, sendNotification_body,
   flushProtocolNotifications_body]

/-- Repeated invocation: run `f` against the state `n` times in sequence,
collecting the per-call results; an abnormal outcome aborts the sequence. -/
def iterCalls {α : Type} (f : State → Outcome α) : Nat → State → Option (List α × State)
  | 0, s => some ([], s)
  | n + 1, s =>
    match f s with
    | .normal v s' =>
      match iterCalls f n s' with
      | some (vs, s'') => some (v :: vs, s'')
      | none => none
    | .abnormal => none

/-- Helper: a function that always returns `.normal v₀` with the state
unchanged iterates to the replicated result list with the state unchanged. -/
theorem iterCalls_const {α : Type} (f : State → Outcome α) (v₀ : α)
    (hf : ∀ s, f s = .normal v₀ s) :
    ∀ n s, iterCalls f n s = some (List.replicate n v₀, s) := by
  intro n
  induction n with
  | zero => intro s; rfl
  | succ k ih =>
    intro s
    simp [iterCalls, hf s, ih s, List.replicate]

/-- Result value of a call when it returned normally; `none` for an
abnormal outcome. -/
def Outcome.resultVal {α : Type} : Outcome α → Option α
  | .normal v _ => some v
  | .abnormal => none

/-- Concrete memory for the end-to-end scenario: the two bytes of the JSON
message `"{}"` (codes 123 and 125) stored at addresses 1000 and 1001. -/
def scenarioMem : Mem :=
  fun a => if a = 1000 then 123 else if a = 1001 then 125 else 0

/-- Concrete starting state for the end-to-end scenario, with an empty
output trace. -/
def scenarioState : State :=
  { mem := scenarioMem, output := [] }

end InspectorStubs

namespace InspectorStubs

/-- C1: for every call to `v8_inspector__Client__IMPL__generateUniqueId`,
with any client handle, any context pointer, and any state, the function
returns normally with exactly the constant 0 and leaves the state
untouched. -/
theorem generateUniqueId_returns_zero :
    ∀ (self data : Ptr) (s : State),
      v8_inspector__Client__IMPL__generateUniqueId self data s = .normal 0 s :=
  fun _ _ _ => rfl

/-- C2: each of the eight void-returning stubs, on every argument tuple and
every state, completes normally (no exception, no crash) and returns the
state unchanged - in particular the memory, which holds every input buffer,
is not mutated. -/
theorem void_stubs_complete_normally :
    (∀ (self data : Ptr) (g : Int) (s : State),
        v8_inspector__Client__IMPL__runMessageLoopOnPause self data g s = .normal () s) ∧
    (∀ (self data : Ptr) (s : State),
        v8_inspector__Client__IMPL__quitMessageLoopOnPause self data s = .normal () s) ∧
    (∀ (self data : Ptr) (g : Int) (s : State),
        v8_inspector__Client__IMPL__runIfWaitingForDebugger self data g s = .normal () s) ∧
    (∀ (self data : Ptr) (g l : Int) (msg url : Ptr) (line col : Nat)
        (st : Ptr) (s : State),
        v8_inspector__Client__IMPL__consoleAPIMessage self data g l msg url line col st s
          = .normal () s) ∧
    (∀ (self data : Ptr) (g : Int) (s : State),
        v8_inspector__Client__IMPL__ensureDefaultContextInGroup self data g s = .normal () s) ∧
    (∀ (self data : Ptr) (cid : Int) (msg : Ptr) (len : Nat) (s : State),
        v8_inspector__Channel__IMPL__sendResponse self data cid msg len s = .normal () s) ∧
    (∀ (self data : Ptr) (msg : Ptr) (len : Nat) (s : State),
        v8_inspector__Channel__IMPL__sendNotification self data msg len s = .normal () s) ∧
    (∀ (self data : Ptr) (s : State),
        v8_inspector__Channel__IMPL__flushProtocolNotifications self data s = .normal () s) :=
  ⟨fun _ _ _ _ => rfl, fun _ _ _ => rfl, fun _ _ _ _ => rfl,
   fun _ _ _ _ _ _ _ _ _ _ => rfl, fun _ _ _ _ => rfl,
   fun _ _ _ _ _ _ => rfl, fun _ _ _ _ _ => rfl, fun _ _ _ => rfl⟩

/-- C3: invoking `sendResponse` with call id 42, the two-byte message
`"{}"` stored in memory, and length 2 returns normally, leaves the memory
and the (empty) output trace exactly as they were, and raises no
exception. -/
theorem sendResponse_scenario_42 :
    v8_inspector__Channel__IMPL__sendResponse 1 0 42 1000 2 scenarioState
      = .normal () scenarioState ∧
    scenarioState.output = [] ∧
    scenarioMem 1000 = 123 ∧ scenarioMem 1001 = 125 :=
  ⟨rfl, rfl, rfl, rfl⟩

/-- C4: every stub is idempotent under repetition - for every argument
tuple, every starting state, and every repetition count `n`, running the
stub `n` times in sequence succeeds, returns the same fixed result on every
call (`0` for `generateUniqueId`, `()` for the void stubs), and leaves the
state exactly as it started, so no call changes the outcome of any later
call. -/
theorem stubs_idempotent :
    (∀ (self data : Ptr) (n : Nat) (s : State),
        iterCalls (v8_inspector__Client__IMPL__generateUniqueId self data) n s
          = some (List.replicate n 0, s)) ∧
    (∀ (self data : Ptr) (g : Int) (n : Nat) (s : State),
        iterCalls (v8_inspector__Client__IMPL__runMessageLoopOnPause self data g) n s
          = some (List.replicate n (), s)) ∧
    (∀ (self data : Ptr) (n : Nat) (s : State),
        iterCalls (v8_inspector__Client__IMPL__quitMessageLoopOnPause self data) n s
          = some (List.replicate n (), s)) ∧
    (∀ (self data : Ptr) (g : Int) (n : Nat) (s : State),
        iterCalls (v8_inspector__Client__IMPL__runIfWaitingForDebugger self data g) n s
          = some (List.replicate n (), s)) ∧
    (∀ (self data : Ptr) (g l : Int) (msg url : Ptr) (line col : Nat) (st : Ptr)
        (n : Nat) (s : State),
        iterCalls
          (v8_inspector__Client__IMPL__consoleAPIMessage self data g l msg url line col st)
          n s = some (List.replicate n (), s)) ∧
    (∀ (self data : Ptr) (g : Int) (n : Nat) (s : State),
        iterCalls (v8_inspector__Client__IMPL__ensureDefaultContextInGroup self data g) n s
          = some (List.replicate n (), s)) ∧
    (∀ (self data : Ptr) (cid : Int) (msg : Ptr) (len : Nat) (n : Nat) (s : State),
        iterCalls (v8_inspector__Channel__IMPL__sendResponse self data cid msg len) n s
          = some (List.replicate n (), s)) ∧
    (∀ (self data : Ptr) (msg : Ptr) (len : Nat) (n : Nat) (s : State),
        iterCalls (v8_inspector__Channel__IMPL__sendNotification self data msg len) n s
          = some (List.replicate n (), s)) ∧
    (∀ (self data : Ptr) (n : Nat) (s : State),
        iterCalls (v8_inspector__Channel__IMPL__flushProtocolNotifications self data) n s
          = some (List.replicate n (), s)) :=
  ⟨fun a b => iterCalls_const _ 0 (fun _ => rfl),
   fun a b g => iterCalls_const _ () (fun _ => rfl),
   fun a b => iterCalls_const _ () (fun _ => rfl),
   fun a b g => iterCalls_const _ () (fun _ => rfl),
   fun a b g l m u li c st => iterCalls_const _ () (fun _ => rfl),
   fun a b g => iterCalls_const _ () (fun _ => rfl),
   fun a b c m l => iterCalls_const _ () (fun _ => rfl),
   fun a b m l => iterCalls_const _ () (fun _ => rfl),
   fun a b => iterCalls_const _ () (fun _ => rfl)⟩

/-- C5: no stub validates its inputs and none can fail - for every stub and
every argument tuple there is exactly one outcome, the normal return with
its fixed result and unchanged state, and the outcome is never abnormal. -/
theorem stubs_never_fail :
    (∀ (self data : Ptr) (s : State),
        v8_inspector__Client__IMPL__generateUniqueId self data s = .normal 0 s ∧
        v8_inspector__Client__IMPL__generateUniqueId self data s ≠ .abnormal) ∧
    (∀ (self data : Ptr) (g : Int) (s : State),
        v8_inspector__Client__IMPL__runMessageLoopOnPause self data g s = .normal () s ∧
        v8_inspector__Client__IMPL__runMessageLoopOnPause self data g s ≠ .abnormal) ∧
    (∀ (self data : Ptr) (s : State),
        v8_inspector__Client__IMPL__quitMessageLoopOnPause self data s = .normal () s ∧
        v8_inspector__Client__IMPL__quitMessageLoopOnPause self data s ≠ .abnormal) ∧
    (∀ (self data : Ptr) (g : Int) (s : State),
        v8_inspector__Client__IMPL__runIfWaitingForDebugger self data g s = .normal () s ∧
        v8_inspector__Client__IMPL__runIfWaitingForDebugger self data g s ≠ .abnormal) ∧
    (∀ (self data : Ptr) (g l : Int) (msg url : Ptr) (line col : Nat) (st : Ptr) (s : State),
        v8_inspector__Client__IMPL__consoleAPIMessage self data g l msg url line col st s
          = .normal () s ∧
        v8_inspector__Client__IMPL__consoleAPIMessage self data g l msg url line col st s
          ≠ .abnormal) ∧
    (∀ (self data : Ptr) (g : Int) (s : State),
        v8_inspector__Client__IMPL__ensureDefaultContextInGroup self data g s = .normal () s ∧
        v8_inspector__Client__IMPL__ensureDefaultContextInGroup self data g s ≠ .abnormal) ∧
    (∀ (self data : Ptr) (cid : Int) (msg : Ptr) (len : Nat) (s : State),
        v8_inspector__Channel__IMPL__sendResponse self data cid msg len s = .normal () s ∧
        v8_inspector__Channel__IMPL__sendResponse self data cid msg len s ≠ .abnormal) ∧
    (∀ (self data : Ptr) (msg : Ptr) (len : Nat) (s : State),
        v8_inspector__Channel__IMPL__sendNotification self data msg len s = .normal () s ∧
        v8_inspector__Channel__IMPL__sendNotification self data msg len s ≠ .abnormal) ∧
    (∀ (self data : Ptr) (s : State),
        v8_inspector__Channel__IMPL__flushProtocolNotifications self data s = .normal () s ∧
        v8_inspector__Channel__IMPL__flushProtocolNotifications self data s ≠ .abnormal) :=
  ⟨fun _ _ _ => ⟨rfl, fun h => Outcome.noConfusion h⟩,
   fun _ _ _ _ => ⟨rfl, fun h => Outcome.noConfusion h⟩,
   fun _ _ _ => ⟨rfl, fun h => Outcome.noConfusion h⟩,
   fun _ _ _ _ => ⟨rfl, fun h => Outcome.noConfusion h⟩,
   fun _ _ _ _ _ _ _ _ _ _ => ⟨rfl, fun h => Outcome.noConfusion h⟩,
   fun _ _ _ _ => ⟨rfl, fun h => Outcome.noConfusion h⟩,
   fun _ _ _ _ _ _ => ⟨rfl, fun h => Outcome.noConfusion h⟩,
   fun _ _ _ _ _ => ⟨rfl, fun h => Outcome.noConfusion h⟩,
   fun _ _ _ => ⟨rfl, fun h => Outcome.noConfusion h⟩⟩

/-- C6: every stub reads and writes nothing beyond its own stack frame:
the state (memory and output) after the call is exactly the state before
it, and the result value is independent of the memory contents and of the
values of every handle argument - so the opaque handles are never
dereferenced, never read, and never written. -/
theorem stubs_frame_effect :
    (∀ (self data : Ptr) (s : State),
        v8_inspector__Client__IMPL__generateUniqueId self data s = .normal 0 s) ∧
    (∀ (self data self' data' : Ptr) (s s' : State),
        (v8_inspector__Client__IMPL__generateUniqueId self data s).resultVal
          = (v8_inspector__Client__IMPL__generateUniqueId self' data' s').resultVal) ∧
    (∀ (self data : Ptr) (g : Int) (s : State),
        v8_inspector__Client__IMPL__runMessageLoopOnPause self data g s = .normal () s) ∧
    (∀ (self data : Ptr) (s : State),
        v8_inspector__Client__IMPL__quitMessageLoopOnPause self data s = .normal () s) ∧
    (∀ (self data : Ptr) (g : Int) (s : State),
        v8_inspector__Client__IMPL__runIfWaitingForDebugger self data g s = .normal () s) ∧
    (∀ (self data : Ptr) (g l : Int) (msg url : Ptr) (line col : Nat) (st : Ptr) (s : State),
        v8_inspector__Client__IMPL__consoleAPIMessage self data g l msg url line col st s
          = .normal () s) ∧
    (∀ (self data : Ptr) (g : Int) (s : State),
        v8_inspector__Client__IMPL__ensureDefaultContextInGroup self data g s = .normal () s) ∧
    (∀ (self data : Ptr) (cid : Int) (msg : Ptr) (len : Nat) (s : State),
        v8_inspector__Channel__IMPL__sendResponse self data cid msg len s = .normal () s) ∧
    (∀ (self data : Ptr) (msg : Ptr) (len : Nat) (s : State),
        v8_inspector__Channel__IMPL__sendNotification self data msg len s = .normal () s) ∧
    (∀ (self data : Ptr) (s : State),
        v8_inspector__Channel__IMPL__flushProtocolNotifications self data s = .normal () s) :=
  ⟨fun _ _ _ => rfl, fun _ _ _ _ _ _ => rfl, fun _ _ _ _ => rfl, fun _ _ _ => rfl,
   fun _ _ _ _ => rfl, fun _ _ _ _ _ _ _ _ _ _ => rfl, fun _ _ _ _ => rfl,
   fun _ _ _ _ _ _ => rfl, fun _ _ _ _ _ => rfl, fun _ _ _ => rfl⟩

/-- C7: every stub terminates on every input - syntactically, none of the
nine bodies contains a loop or a function call and each executes in exactly
one step; semantically, every call returns (yields a normal outcome) for
every argument tuple and every state. -/
theorem stubs_terminate :
    (allBodies.all fun b => !b.hasLoop && !b.hasCall && b.stepCount == 1) = true ∧
    (∀ (self data : Ptr) (s : State), ∃ (v : Int) (s' : State),
        v8_inspector__Client__IMPL__generateUniqueId self data s = .normal v s') ∧
    (∀ (self data : Ptr) (g : Int) (s : State), ∃ s',
        v8_inspector__Client__IMPL__runMessageLoopOnPause self data g s = .normal () s') ∧
    (∀ (self data : Ptr) (s : State), ∃ s',
        v8_inspector__Client__IMPL__quitMessageLoopOnPause self data s = .normal () s') ∧
    (∀ (self data : Ptr) (g : Int) (s : State), ∃ s',
        v8_inspector__Client__IMPL__runIfWaitingForDebugger self data g s = .normal () s') ∧
    (∀ (self data : Ptr) (g l : Int) (msg url : Ptr) (line col : Nat) (st : Ptr) (s : State),
        ∃ s',
        v8_inspector__Client__IMPL__consoleAPIMessage self data g l msg url line col st s
          = .normal () s') ∧
    (∀ (self data : Ptr) (g : Int) (s : State), ∃ s',
        v8_inspector__Client__IMPL__ensureDefaultContextInGroup self data g s = .normal () s') ∧
    (∀ (self data : Ptr) (cid : Int) (msg : Ptr) (len : Nat) (s : State), ∃ s',
        v8_inspector__Channel__IMPL__sendResponse self data cid msg len s = .normal () s') ∧
    (∀ (self data : Ptr) (msg : Ptr) (len : Nat) (s : State), ∃ s',
        v8_inspector__Channel__IMPL__sendNotification self data msg len s = .normal () s') ∧
    (∀ (self data : Ptr) (s : State), ∃ s',
        v8_inspector__Channel__IMPL__flushProtocolNotifications self data s = .normal () s') :=
  ⟨by decide,
   fun _ _ s => ⟨0, s, rfl⟩, fun _ _ _ s => ⟨s, rfl⟩, fun _ _ s => ⟨s, rfl⟩,
   fun _ _ _ s => ⟨s, rfl⟩, fun _ _ _ _ _ _ _ _ _ s => ⟨s, rfl⟩,
   fun _ _ _ s => ⟨s, rfl⟩, fun _ _ _ _ _ s => ⟨s, rfl⟩,
   fun _ _ _ _ s => ⟨s, rfl⟩, fun _ _ s => ⟨s, rfl⟩⟩

/-- C8: every stub tolerates null pointers - calling each stub with every
pointer argument equal to the null address 0 (and arbitrary integer
arguments and state) still returns normally with the state unchanged, and
`generateUniqueId` still returns 0. -/
theorem stubs_tolerate_null :
    (∀ (s : State),
        v8_inspector__Client__IMPL__generateUniqueId 0 0 s = .normal 0 s) ∧
    (∀ (g : Int) (s : State),
        v8_inspector__Client__IMPL__runMessageLoopOnPause 0 0 g s = .normal () s) ∧
    (∀ (s : State),
        v8_inspector__Client__IMPL__quitMessageLoopOnPause 0 0 s = .normal () s) ∧
    (∀ (g : Int) (s : State),
        v8_inspector__Client__IMPL__runIfWaitingForDebugger 0 0 g s = .normal () s) ∧
    (∀ (g l : Int) (line col : Nat) (s : State),
        v8_inspector__Client__IMPL__consoleAPIMessage 0 0 g l 0 0 line col 0 s
          = .normal () s) ∧
    (∀ (g : Int) (s : State),
        v8_inspector__Client__IMPL__ensureDefaultContextInGroup 0 0 g s = .normal () s) ∧
    (∀ (cid : Int) (len : Nat) (s : State),
        v8_inspector__Channel__IMPL__sendResponse 0 0 cid 0 len s = .normal () s) ∧
    (∀ (len : Nat) (s : State),
        v8_inspector__Channel__IMPL__sendNotification 0 0 0 len s = .normal () s) ∧
    (∀ (s : State),
        v8_inspector__Channel__IMPL__flushProtocolNotifications 0 0 s = .normal () s) :=
  ⟨fun _ => rfl, fun _ _ => rfl, fun _ => rfl, fun _ _ => rfl, fun _ _ _ _ _ => rfl,
   fun _ _ => rfl, fun _ _ _ => rfl, fun _ _ => rfl, fun _ => rfl⟩

/-- C9: `generateUniqueId` does not produce unique identifiers - any two
calls, with equal or differing client handles, context pointers, and
states, return equal values, and that common value is 0, so distinct calls
never yield distinct ids. -/
theorem generateUniqueId_not_unique :
    ∀ (self data self' data' : Ptr) (s s' : State),
      (v8_inspector__Client__IMPL__generateUniqueId self data s).resultVal
        = (v8_inspector__Client__IMPL__generateUniqueId self' data' s').resultVal ∧
      (v8_inspector__Client__IMPL__generateUniqueId self data s).resultVal = some 0 :=
  fun _ _ _ _ _ _ => ⟨rfl, rfl⟩

/-- C10: every stub is deterministic and its result is independent of all
of its inputs - for any two invocations of the same stub from the same
state, with entirely different argument values, the outcome (result value
and resulting state) is identical, so no input value flows to any
output. -/
theorem stubs_input_independent :
    (∀ (self data self' data' : Ptr) (s : State),
        v8_inspector__Client__IMPL__generateUniqueId self data s
          = v8_inspector__Client__IMPL__generateUniqueId self' data' s) ∧
    (∀ (self data self' data' : Ptr) (g g' : Int) (s : State),
        v8_inspector__Client__IMPL__runMessageLoopOnPause self data g s
          = v8_inspector__Client__IMPL__runMessageLoopOnPause self' data' g' s) ∧
    (∀ (self data self' data' : Ptr) (s : State),
        v8_inspector__Client__IMPL__quitMessageLoopOnPause self data s
          = v8_inspector__Client__IMPL__quitMessageLoopOnPause self' data' s) ∧
    (∀ (self data self' data' : Ptr) (g g' : Int) (s : State),
        v8_inspector__Client__IMPL__runIfWaitingForDebugger self data g s
          = v8_inspector__Client__IMPL__runIfWaitingForDebugger self' data' g' s) ∧
    (∀ (self data self' data' : Ptr) (g l g' l' : Int) (msg url msg' url' : Ptr)
        (line col line' col' : Nat) (st st' : Ptr) (s : State),
        v8_inspector__Client__IMPL__consoleAPIMessage self data g l msg url line col st s
          = v8_inspector__Client__IMPL__consoleAPIMessage self' data' g' l' msg' url'
              line' col' st' s) ∧
    (∀ (self data self' data' : Ptr) (g g' : Int) (s : State),
        v8_inspector__Client__IMPL__ensureDefaultContextInGroup self data g s
          = v8_inspector__Client__IMPL__ensureDefaultContextInGroup self' data' g' s) ∧
    (∀ (self data self' data' : Ptr) (cid cid' : Int) (msg msg' : Ptr) (len len' : Nat)
        (s : State),
        v8_inspector__Channel__IMPL__sendResponse self data cid msg len s
          = v8_inspector__Channel__IMPL__sendResponse self' data' cid' msg' len' s) ∧
    (∀ (self data self' data' : Ptr) (msg msg' : Ptr) (len len' : Nat) (s : State),
        v8_inspector__Channel__IMPL__sendNotification self data msg len s
          = v8_inspector__Channel__IMPL__sendNotification self' data' msg' len' s) ∧
    (∀ (self data self' data' : Ptr) (s : State),
        v8_inspector__Channel__IMPL__flushProtocolNotifications self data s
          = v8_inspector__Channel__IMPL__flushProtocolNotifications self' data' s) :=
  ⟨fun _ _ _ _ _ => rfl, fun _ _ _ _ _ _ _ => rfl, fun _ _ _ _ _ => rfl,
   fun _ _ _ _ _ _ _ => rfl,
   fun _ _ _ _ _ _ _ _ _ _ _ _ _ _ _ _ _ _ _ => rfl,
   fun _ _ _ _ _ _ _ => rfl,
   fun _ _ _ _ _ _ _ _ _ _ _ => rfl,
   fun _ _ _ _ _ _ _ _ _ => rfl, fun _ _ _ _ _ => rfl⟩

end InspectorStubs
